import Mathlib

/-!
Verification of the NOTAM-to-GeoJSON core (`notamai.py`): a shallow embedding
of the coordinate codec, the geodesic endpoint wrapper, the circle sampler and
the GeoJSON exporter, with theorems settling the specification's claims.

Python floats are modelled as rational numbers together with an explicit
round-to-nearest-even function `roundDouble` that maps an exact rational to
the nearest IEEE-754 binary64 value (for magnitudes in the normal range,
which covers every number this program manipulates).  Every arithmetic
operation the source performs on floats is modelled as the exact rational
operation followed by `roundDouble`, which is exactly the IEEE semantics.
-/

namespace NotamMapper

/-- `2 ^ e` as a rational, for an integer (possibly negative) exponent. -/
def pow2 (e : ℤ) : ℚ :=
  if 0 ≤ e then ((2 ^ e.toNat : ℕ) : ℚ) else 1 / ((2 ^ (-e).toNat : ℕ) : ℚ)

/-- Floor of a rational as an integer (the denominator is positive, so
flooring integer division of the numerator by the denominator is exact). -/
def ratFloor (q : ℚ) : ℤ := q.num.fdiv q.den

/-- `⌊log₂ n⌋` for `1 ≤ n` (and 0 for `n = 0`), by structural recursion on
an explicit fuel so that it evaluates by kernel reduction. -/
def natLog2Go : Nat → Nat → Nat
  | 0, _ => 0
  | fuel + 1, n => if 2 ≤ n then natLog2Go fuel (n / 2) + 1 else 0

/-- `⌊log₂ n⌋`.  A fuel of 1100 is exact for every `n < 2 ^ 1100`, far
beyond the binary64 range this model works in. -/
def natLog2 (n : Nat) : Nat := natLog2Go 1100 n

/-- `⌊log₂ q⌋` for a positive rational `q`, computed from the bit lengths of
the numerator and denominator. -/
def ratLog2 (q : ℚ) : ℤ :=
  let d : ℤ := (natLog2 q.num.toNat : ℤ) - (natLog2 q.den : ℤ)
  if pow2 d ≤ q then d else d - 1

/-- Round a rational to the nearest integer, ties to even. -/
def roundHalfEven (q : ℚ) : ℤ :=
  let f := ratFloor q
  if q - f < 1 / 2 then f
  else if (1 : ℚ) / 2 < q - f then f + 1
  else if f % 2 = 0 then f else f + 1

/-- Round a positive rational to the nearest IEEE-754 binary64 value
(53-bit significand), assuming the result is in the normal range. -/
def roundDoublePos (q : ℚ) : ℚ :=
  let e : ℤ := ratLog2 q - 52
  (roundHalfEven (q / pow2 e) : ℚ) * pow2 e

/-- Round a rational to the nearest IEEE-754 binary64 value (round to
nearest, ties to even).  Subnormals and overflow are not modelled; every
value occurring in this program is far inside the normal range. -/
def roundDouble (q : ℚ) : ℚ :=
  if q = 0 then 0
  else if q < 0 then -roundDoublePos (-q)
  else roundDoublePos q

/-- IEEE binary64 addition of two doubles represented exactly as rationals. -/
def dAdd (x y : ℚ) : ℚ := roundDouble (x + y)

/-- IEEE binary64 multiplication. -/
def dMul (x y : ℚ) : ℚ := roundDouble (x * y)

/-- IEEE binary64 division. -/
def dDiv (x y : ℚ) : ℚ := roundDouble (x / y)

/-! ## Coordinate codec (`parse_coords`) -/

/-- Python string slicing `s[a:b]` for `0 ≤ a ≤ b`: the characters from
position `a` up to (excluding) `b`, truncated at the end of the string. -/
def pySlice (s : String) (a b : Nat) : String :=
  ⟨(s.toList.drop a).take (b - a)⟩

/-- Value of a digit string read in base 10 (`[] ↦ 0`). -/
def digitsVal (l : List Char) : ℚ :=
  l.foldl (fun acc c => 10 * acc + ((c.toNat - 48 : ℕ) : ℚ)) 0

/-- Python `float(s)`, modelled on the forms that occur in coordinate
parsing: an optional sign, then digits with an optional single decimal
point (at least one digit overall), converted to the nearest binary64
value.  Exotic accepted forms of `float` (leading/trailing whitespace,
`inf`/`nan`, underscores, exponents) never arise from the fixed-width
sexagesimal slices and are not modelled; on every other string `float`
raises `ValueError`, modelled as `none`. -/
def pyFloat? (s : String) : Option ℚ :=
  let l := s.toList
  let signAndRest : ℚ × List Char :=
    match l with
    | '-' :: r => (-1, r)
    | '+' :: r => (1, r)
    | r => (1, r)
  let ip := signAndRest.2.takeWhile Char.isDigit
  let rest := signAndRest.2.drop ip.length
  match rest with
  | [] =>
    if ip.isEmpty then none
    else some (roundDouble (signAndRest.1 * digitsVal ip))
  | '.' :: fp =>
    if fp.all Char.isDigit ∧ ¬(ip.isEmpty ∧ fp.isEmpty) then
      some (roundDouble (signAndRest.1 *
        (digitsVal ip + digitsVal fp / ((10 ^ fp.length : ℕ) : ℚ))))
    else none
  | _ => none

/-- `parse_coords` from `notamai.py`: converts a string like
`"422750N1154403W"` to a decimal `(lon, lat)` pair.  The source computes
`float(coords[0:2]) + float(coords[2:4])/60 + float(coords[4:6])/3600`
(and positions 7-13 for the longitude), then negates the latitude when
`coords[6] == 'S'` and the longitude when `coords[14] == 'W'`.  A failing
`float` conversion (ValueError) or an out-of-range index (IndexError)
propagates as an exception, modelled as `none`. -/
def parse_coords (coords : String) : Option (ℚ × ℚ) := do
  let latd ← pyFloat? (pySlice coords 0 2)
  let latm ← pyFloat? (pySlice coords 2 4)
  let lats ← pyFloat? (pySlice coords 4 6)
  let lond ← pyFloat? (pySlice coords 7 10)
  let lonm ← pyFloat? (pySlice coords 10 12)
  let lons ← pyFloat? (pySlice coords 12 14)
  let c6 ← coords.toList.get? 6
  let c14 ← coords.toList.get? 14
  let latv := dAdd (dAdd latd (dDiv latm 60)) (dDiv lats 3600)
  let lonv := dAdd (dAdd lond (dDiv lonm 60)) (dDiv lons 3600)
  let lat := if c6 = 'S' then -latv else latv
  let lon := if c14 = 'W' then -lonv else lonv
  some (lon, lat)

/-- `nautical_miles_to_meters` from `notamai.py`: `1852.0 * nautical_miles`. -/
def nautical_miles_to_meters (nautical_miles : ℚ) : ℚ :=
  dMul 1852 nautical_miles

/-! ## Altitude model

The source declares five pydantic models `SurfaceAlt`, `UnlimitedAlt`,
`MslAlt`, `AglAlt`, `FlAlt` and a sixth, `AltitudeRange`, whose `min` and
`max` fields are a union of the five base models (so a range never nests
another range).  A `RangeRing`'s altitude is a union of all six; a
`Polygon`'s altitude is `AltitudeRange` only. -/

/-- One of the five non-range pydantic altitude models.  Each carries its
constant `type` tag; `MslAlt`, `AglAlt` and `FlAlt` carry `height_ft`. -/
inductive BaseAlt where
  | surfaceAlt
  | unlimitedAlt
  | mslAlt (height_ft : ℤ)
  | aglAlt (height_ft : ℤ)
  | flAlt (height_ft : ℤ)
  deriving DecidableEq

/-- The pydantic `AltitudeRange` model: `type='RANGE'` plus `min` and `max`
drawn from the five base altitude models. -/
structure AltitudeRange where
  min : BaseAlt
  max : BaseAlt
  deriving DecidableEq

/-- The altitude union accepted by `RangeRing.altitude`:
`Union[MslAlt, AglAlt, SurfaceAlt, AltitudeRange, UnlimitedAlt, FlAlt]`. -/
inductive RingAlt where
  | base (b : BaseAlt)
  | range (r : AltitudeRange)
  deriving DecidableEq

/-- Python `repr` of a base altitude model.  Pydantic renders
`repr(model)` as `ClassName(field1=value1, field2=value2)`, with string
field values shown in quotes; the constant `type` field is included. -/
def BaseAlt.pyRepr : BaseAlt → String
  | .surfaceAlt => "SurfaceAlt(type='SFC')"
  | .unlimitedAlt => "UnlimitedAlt(type='UNL')"
  | .mslAlt h => "MslAlt(type='MSL', height_ft=" ++ toString h ++ ")"
  | .aglAlt h => "AglAlt(type='AGL', height_ft=" ++ toString h ++ ")"
  | .flAlt h => "FlAlt(type='FL', height_ft=" ++ toString h ++ ")"

/-- Python `str` of a base altitude model.  Pydantic renders `str(model)`
as the space-separated `field=repr(value)` pairs, without the class name. -/
def BaseAlt.pyStr : BaseAlt → String
  | .surfaceAlt => "type='SFC'"
  | .unlimitedAlt => "type='UNL'"
  | .mslAlt h => "type='MSL' height_ft=" ++ toString h
  | .aglAlt h => "type='AGL' height_ft=" ++ toString h
  | .flAlt h => "type='FL' height_ft=" ++ toString h

/-- Python `str` of an `AltitudeRange`: nested models appear via `repr`. -/
def AltitudeRange.pyStr (r : AltitudeRange) : String :=
  "type='RANGE' min=" ++ r.min.pyRepr ++ " max=" ++ r.max.pyRepr

/-- Python `str` of a `RangeRing.altitude` union member. -/
def RingAlt.pyStr : RingAlt → String
  | .base b => b.pyStr
  | .range r => r.pyStr

/-- Decidable substring test: does `pat` occur contiguously in `s`? -/
def containsStr (s pat : String) : Bool :=
  (List.range (s.toList.length + 1)).any
    fun i => pat.toList.isPrefixOf (s.toList.drop i)

/-! ## Geodesic engine (`get_endpoint`)

The source calls `geographiclib`'s `Geodesic.Direct`, an external library
solving the direct geodesic problem on the WGS-84 ellipsoid.  The library
is outside this repository, so the solver is an abstract parameter: a
function from `(lat1, lon1, bearing_deg, dist_m)` to the raw destination
`(lat2, lon2)`.  The repository code under verification is the wrapper
around it (in particular its antimeridian clamp). -/

/-- The fields of the `Geodesic.Direct` result dictionary that
`get_endpoint` reads. -/
structure DirectResult where
  lat2 : ℚ
  lon2 : ℚ
  deriving DecidableEq

/-- An abstract direct-geodesic solver: arguments
`lat1 lon1 bearing_deg dist_m`. -/
abbrev Geod := ℚ → ℚ → ℚ → ℚ → DirectResult

/-- The double value of the Python literal `-179.99`. -/
def clampLon : ℚ := roundDouble (-17999 / 100)

/-- `get_endpoint` from `notamai.py`: calls the solver, then, when the
starting longitude is negative and the computed destination longitude is
positive, replaces the destination longitude with `-179.99`; returns
`(lon2, lat2)`. -/
def get_endpoint (g : Geod) (lat1 lon1 bearing_deg dist_m : ℚ) : ℚ × ℚ :=
  let d := g lat1 lon1 bearing_deg dist_m
  let lon2 := if lon1 < 0 ∧ 0 < d.lon2 then clampLon else d.lon2
  (lon2, d.lat2)

/-! ## Circle sampler (`create_circle_polygon`)

The source loop is `bearing = 0.0; while bearing < 360.0: append
get_endpoint(center[1], center[0], bearing, radius_m); bearing +=
bearing_step` with `bearing_step = 360.0 / num_segments`, followed by
`circle_polygon.append(circle_polygon[0])`.  The accumulation
`bearing += bearing_step` is binary64 arithmetic, modelled with `dAdd`.
The loop is embedded with fuel `num_segments + 2` (two more iterations
than the mathematically exact count); exhausting the fuel — which would
mean the model diverges from the unbounded Python loop — yields `none`,
and every theorem below is conditioned on a `some` result. -/

/-- The successive values taken by `bearing`: starting from `b`, keep
appending while the value is below 360, stepping by binary64 addition of
`step`.  `none` when `fuel` iterations do not reach 360. -/
def bearingList (step : ℚ) : Nat → ℚ → Option (List ℚ)
  | 0, _ => none
  | fuel + 1, b =>
    if b < 360 then (bearingList step fuel (dAdd b step)).map (b :: ·)
    else some []

/-- The sampling loop of `create_circle_polygon`: one `get_endpoint` call
per bearing value.  The center is a `(lon, lat)` pair as returned by
`parse_coords`; the source passes `center[1]` as latitude and `center[0]`
as longitude. -/
def circleLoop (g : Geod) (center : ℚ × ℚ) (radius_m step : ℚ) :
    Nat → ℚ → Option (List (ℚ × ℚ))
  | 0, _ => none
  | fuel + 1, b =>
    if b < 360 then
      (circleLoop g center radius_m step fuel (dAdd b step)).map
        (get_endpoint g center.2 center.1 b radius_m :: ·)
    else some []

/-- `create_circle_polygon` from `notamai.py`.  `num_segments = 0` makes
Python raise `ZeroDivisionError` computing `360.0 / num_segments`, and a
negative `num_segments` makes the loop run forever (the bearing only
decreases); both are modelled as `none`.  Otherwise the sampled points are
returned with the first point appended again at the end. -/
def create_circle_polygon (g : Geod) (center : ℚ × ℚ) (radius_m : ℚ)
    (num_segments : ℤ) : Option (List (ℚ × ℚ)) :=
  if num_segments ≤ 0 then none
  else do
    let pts ← circleLoop g center radius_m (dDiv 360 (num_segments : ℚ))
      (num_segments.toNat + 2) 0
    match pts with
    | [] => none
    | p :: _ => some (pts ++ [p])

/-! ## NOTAM model and GeoJSON exporter -/

/-- The pydantic `Coordinates` model: a latitude token (`DDMMSS[N|S]`) and
a longitude token (`DDDMMSS[W|E]`), both plain strings. -/
structure Coordinates where
  lat : String
  lon : String
  deriving DecidableEq

/-- The pydantic `RangeRing` model. -/
structure RangeRing where
  center : Coordinates
  radius_nm : ℚ
  altitude : RingAlt
  deriving DecidableEq

/-- The pydantic `Polygon` model: the altitude is restricted to
`AltitudeRange`. -/
structure Polygon where
  coordinates : List Coordinates
  altitude : AltitudeRange
  deriving DecidableEq

/-- The pydantic `Notam` model (aggregate root). -/
structure Notam where
  accountability : Option String
  location : Option String
  number : Option String
  description : Option String
  range_rings : List RangeRing
  polygons : List Polygon
  daily_times : List String
  start_date : Option String
  end_date : Option String
  caveats : List String
  deriving DecidableEq

/-- Python `str` applied to an `Optional[str]`: `str(None)` is `"None"`,
otherwise the string itself. -/
def pyStrOpt : Option String → String
  | none => "None"
  | some s => s

/-- The `properties` dictionary of an emitted Feature.  Both branches of
`as_geojson` build the same literal: `number`, `title` (the description),
`accountability`, `str(start_date)`, `str(end_date)`, `daily_times`, and
`str(<altitude of this ring/polygon>)`. -/
structure Properties where
  number : Option String
  title : Option String
  accountability : Option String
  start_date : String
  end_date : String
  daily_times : List String
  altitude : String
  deriving DecidableEq

/-- An emitted GeoJSON Feature.  The constant fields
(`"type": "Feature"`, geometry `"type": "Polygon"`) are omitted; `ring`
is the single linear ring `geometry.coordinates[0]`. -/
structure Feature where
  ring : List (ℚ × ℚ)
  properties : Properties
  deriving DecidableEq

/-- The shared properties literal of `as_geojson`, parameterised by the
rendered altitude string of the ring or polygon at hand. -/
def featureProperties (n : Notam) (alt : String) : Properties :=
  { number := n.number
    title := n.description
    accountability := n.accountability
    start_date := pyStrOpt n.start_date
    end_date := pyStrOpt n.end_date
    daily_times := n.daily_times
    altitude := alt }

/-- The Feature built for one `RangeRing`: decode the concatenated
`center.lat + center.lon`, convert the radius to meters, and sample a
300-segment circle. -/
def ringFeature (g : Geod) (n : Notam) (rr : RangeRing) : Option Feature := do
  let center ← parse_coords (rr.center.lat ++ rr.center.lon)
  let ring ← create_circle_polygon g center
    (nautical_miles_to_meters rr.radius_nm) 300
  some ⟨ring, featureProperties n rr.altitude.pyStr⟩

/-- The list comprehension
`[parse_coords(coord.lat + coord.lon) for coord in polygon.coordinates]`:
each vertex decoded in input order, the whole list failing if any vertex
fails. -/
def decodeVertices : List Coordinates → Option (List (ℚ × ℚ))
  | [] => some []
  | c :: rest => do
    let p ← parse_coords (c.lat ++ c.lon)
    let ps ← decodeVertices rest
    some (p :: ps)

/-- The Feature built for one `Polygon` entity: the ring is exactly the
decoded vertices, in input order (the source appends nothing to them). -/
def polyFeature (n : Notam) (p : Polygon) : Option Feature := do
  let ring ← decodeVertices p.coordinates
  some ⟨ring, featureProperties n p.altitude.pyStr⟩

/-- The first loop of `as_geojson`: one Feature per range ring, in input
order. -/
def exportRings (g : Geod) (n : Notam) : List RangeRing → Option (List Feature)
  | [] => some []
  | rr :: rest => do
    let f ← ringFeature g n rr
    let fs ← exportRings g n rest
    some (f :: fs)

/-- The second loop of `as_geojson`: one Feature per polygon entity, in
input order. -/
def exportPolys (n : Notam) : List Polygon → Option (List Feature)
  | [] => some []
  | p :: rest => do
    let f ← polyFeature n p
    let fs ← exportPolys n rest
    some (f :: fs)

/-- `Notam.as_geojson` from `notamai.py`: the features of the emitted
FeatureCollection — all range-ring features first, then all polygon
features, each group in input order.  (The source's `if self.range_rings:`
and `if self.polygons:` guards are no-ops: iterating an empty list appends
nothing.)  An exception anywhere (coordinate decode failure) propagates,
modelled as `none`. -/
def Notam.as_geojson (g : Geod) (n : Notam) : Option (List Feature) := do
  let rfs ← exportRings g n n.range_rings
  let pfs ← exportPolys n n.polygons
  some (rfs ++ pfs)

/-- A trivial concrete geodesic solver used to instantiate the abstract
engine in concrete evaluations: every destination is the origin. -/
def gZero : Geod := fun _ _ _ _ => ⟨0, 0⟩

/-- A concrete solver whose raw destination longitude is always positive,
used to exercise the antimeridian clamp. -/
def gEast : Geod := fun _ _ _ _ => ⟨7, 3⟩

/-- Coordinate tokens decoding to `(0, 0)`. -/
def coordZero : Coordinates := ⟨"000000N", "0000000E"⟩

/-- Coordinate tokens decoding to `(0, 1)` (one degree of latitude). -/
def coordLat1 : Coordinates := ⟨"010000N", "0000000E"⟩

/-- Coordinate tokens decoding to `(1, 0)` (one degree of longitude). -/
def coordLon1 : Coordinates := ⟨"000000N", "0010000E"⟩

/-- A Notam with every field empty. -/
def notamEmpty : Notam :=
  { accountability := none
    location := none
    number := none
    description := none
    range_rings := []
    polygons := []
    daily_times := []
    start_date := none
    end_date := none
    caveats := [] }

/-- A Notam whose only entity is a polygon whose decoded vertex sequence
does not end where it starts. -/
def notamOpenPolygon : Notam :=
  { notamEmpty with
      polygons := [⟨[coordZero, coordLat1, coordLon1], ⟨.surfaceAlt, .unlimitedAlt⟩⟩] }

/-- A Notam whose only entity is a degenerate one-vertex polygon. -/
def notamOneVertex : Notam :=
  { notamEmpty with
      polygons := [⟨[coordZero], ⟨.flAlt 400, .unlimitedAlt⟩⟩] }

/-- A Notam with a negative-radius range ring and a one-vertex polygon:
both geometric validity conditions of the specification are violated. -/
def notamInvalidGeometry : Notam :=
  { notamEmpty with
      range_rings := [⟨coordZero, -1, .base .surfaceAlt⟩]
      polygons := [⟨[coordZero], ⟨.flAlt 400, .unlimitedAlt⟩⟩] }

/-! ## Helper lemmas

From here on the Batteries rational operations are made locally
semireducible so that concrete computations can be settled by `decide`
(kernel checking is unaffected; this only lets elaboration evaluate
them). -/

section Claims

attribute [local semireducible] Rat.add Rat.mul Rat.sub Rat.inv Rat.ofScientific

/-- The sampling loop is the pointwise image of the bearing sequence. -/
theorem circleLoop_eq_bearingList (g : Geod) (center : ℚ × ℚ)
    (radius_m step : ℚ) :
    ∀ (fuel : Nat) (b : ℚ),
      circleLoop g center radius_m step fuel b =
        (bearingList step fuel b).map
          (List.map (fun β => get_endpoint g center.2 center.1 β radius_m))
  | 0, _ => rfl
  | fuel + 1, b => by
    rw [circleLoop, bearingList]
    by_cases hb : b < 360
    · rw [if_pos hb, if_pos hb,
        circleLoop_eq_bearingList g center radius_m step fuel (dAdd b step)]
      cases bearingList step fuel (dAdd b step) <;> rfl
    · rw [if_neg hb, if_neg hb]; rfl

/-- A bearing sequence that starts at 0 is nonempty. -/
theorem bearingList_zero_ne_nil {step : ℚ} {fuel : Nat} {l : List ℚ}
    (h : bearingList step (fuel + 1) 0 = some l) : l ≠ [] := by
  rw [bearingList, if_pos (by norm_num : (0 : ℚ) < 360)] at h
  cases hb : bearingList step fuel (dAdd 0 step) with
  | none => rw [hb] at h; cases h
  | some l' => rw [hb] at h; cases h; simp

/-- Pointwise description of `exportRings`. -/
theorem exportRings_get? (g : Geod) (n : Notam) :
    ∀ {l : List RangeRing} {fs : List Feature},
      exportRings g n l = some fs →
        ∀ i : Nat, fs.get? i = (l.get? i).bind (ringFeature g n)
  | [], fs, h, i => by
    cases h; cases i <;> rfl
  | rr :: rest, fs, h, i => by
    rw [exportRings] at h
    cases hf : ringFeature g n rr with
    | none => rw [hf] at h; cases h
    | some f =>
      rw [hf] at h
      cases hrest : exportRings g n rest with
      | none => rw [hrest] at h; cases h
      | some fs' =>
        rw [hrest] at h
        cases h
        cases i with
        | zero => simpa using hf.symm
        | succ i => simpa using exportRings_get? g n hrest i

/-- `exportRings` preserves length. -/
theorem exportRings_length (g : Geod) (n : Notam) :
    ∀ {l : List RangeRing} {fs : List Feature},
      exportRings g n l = some fs → fs.length = l.length
  | [], fs, h => by cases h; rfl
  | rr :: rest, fs, h => by
    rw [exportRings] at h
    cases hf : ringFeature g n rr with
    | none => rw [hf] at h; cases h
    | some f =>
      rw [hf] at h
      cases hrest : exportRings g n rest with
      | none => rw [hrest] at h; cases h
      | some fs' =>
        rw [hrest] at h
        cases h
        simpa using exportRings_length g n hrest

/-- Pointwise description of `exportPolys`. -/
theorem exportPolys_get? (n : Notam) :
    ∀ {l : List Polygon} {fs : List Feature},
      exportPolys n l = some fs →
        ∀ j : Nat, fs.get? j = (l.get? j).bind (polyFeature n)
  | [], fs, h, j => by
    cases h; cases j <;> rfl
  | p :: rest, fs, h, j => by
    rw [exportPolys] at h
    cases hf : polyFeature n p with
    | none => rw [hf] at h; cases h
    | some f =>
      rw [hf] at h
      cases hrest : exportPolys n rest with
      | none => rw [hrest] at h; cases h
      | some fs' =>
        rw [hrest] at h
        cases h
        cases j with
        | zero => simpa using hf.symm
        | succ j => simpa using exportPolys_get? n hrest j

/-- The exported feature list splits into the range-ring part followed by
the polygon part. -/
theorem as_geojson_parts {g : Geod} {n : Notam} {fs : List Feature}
    (h : Notam.as_geojson g n = some fs) :
    ∃ rfs pfs, exportRings g n n.range_rings = some rfs ∧
      exportPolys n n.polygons = some pfs ∧ fs = rfs ++ pfs := by
  rw [Notam.as_geojson] at h
  cases hr : exportRings g n n.range_rings with
  | none => rw [hr] at h; cases h
  | some rfs =>
    rw [hr] at h
    cases hp : exportPolys n n.polygons with
    | none => rw [hp] at h; cases h
    | some pfs =>
      rw [hp] at h
      cases h
      exact ⟨rfs, pfs, rfl, rfl, rfl⟩

/-! ## Claims -/

/-- C6: for every call to `get_endpoint` whose starting longitude is
negative and whose computed raw destination longitude is positive, the
returned longitude is exactly the double `-179.99` (and in particular is
negative, never positive). -/
theorem c6_antimeridian_clamp (g : Geod) (lat1 lon1 bearing_deg dist_m : ℚ)
    (h1 : lon1 < 0) (h2 : 0 < (g lat1 lon1 bearing_deg dist_m).lon2) :
    get_endpoint g lat1 lon1 bearing_deg dist_m =
      (clampLon, (g lat1 lon1 bearing_deg dist_m).lat2) ∧
    (get_endpoint g lat1 lon1 bearing_deg dist_m).1 = roundDouble (-17999 / 100) ∧
    (get_endpoint g lat1 lon1 bearing_deg dist_m).1 < 0 := by
  have he : get_endpoint g lat1 lon1 bearing_deg dist_m =
      (clampLon, (g lat1 lon1 bearing_deg dist_m).lat2) := by
    rw [get_endpoint]
    simp only [if_pos (And.intro h1 h2)]
  refine ⟨he, ?_, ?_⟩
  · rw [he]
    rfl
  · rw [he]
    show clampLon < 0
    decide

/-- C6 witness: a concrete solver with positive raw destination longitude,
started at longitude `-5`. -/
theorem c6_antimeridian_clamp_witness :
    get_endpoint gEast 0 (-5) 0 0 = (clampLon, 7) ∧
    (get_endpoint gEast 0 (-5) 0 0).1 = roundDouble (-17999 / 100) ∧
    (get_endpoint gEast 0 (-5) 0 0).1 < 0 := by
  simpa [gEast] using
    c6_antimeridian_clamp gEast 0 (-5) 0 0 (by norm_num) (by norm_num [gEast])

set_option maxRecDepth 8000 in
/-- C7: `parse_coords "422750N1154403W"` computes each axis as
`degrees + minutes/60 + seconds/3600` in binary64 from the fixed
positions — the longitude is exactly `-(115 + 44/60 + 3/3600)` rounded,
within `1e-3` of `-115.734` and negative, and the latitude is exactly
`42 + 27/60 + 50/3600` rounded, within `1e-3` of `42.463` and
positive. -/
theorem c7_decode_hemisphere_sign :
    parse_coords "422750N1154403W" =
      some (-(8144067966781795 / 70368744177664), 2988130534010971 / 70368744177664) ∧
    (-(8144067966781795 / 70368744177664) : ℚ) =
      -(dAdd (dAdd 115 (dDiv 44 60)) (dDiv 3 3600)) ∧
    (2988130534010971 / 70368744177664 : ℚ) =
      dAdd (dAdd 42 (dDiv 27 60)) (dDiv 50 3600) ∧
    |(-(8144067966781795 / 70368744177664) : ℚ) + 115734 / 1000| ≤ 1 / 1000 ∧
    |(2988130534010971 / 70368744177664 : ℚ) - 42463 / 1000| ≤ 1 / 1000 ∧
    (-(8144067966781795 / 70368744177664) : ℚ) < 0 ∧
    (0 : ℚ) < 2988130534010971 / 70368744177664 := by
  refine ⟨by decide, by decide, by decide, ?_, ?_, by norm_num, by norm_num⟩
  · rw [abs_le]; constructor <;> norm_num
  · rw [abs_le]; constructor <;> norm_num

/-- C8: every circle produced by `create_circle_polygon` (any solver and
center, positive radius, positive segment count) has its first and last
points identical — the same value, not merely approximately equal. -/
theorem c8_circle_first_eq_last (g : Geod) (center : ℚ × ℚ)
    (radius_m : ℚ) (num_segments : ℤ) (l : List (ℚ × ℚ))
    (_hr : 0 < radius_m) (hn : 0 < num_segments)
    (h : create_circle_polygon g center radius_m num_segments = some l) :
    l ≠ [] ∧ l.head? = l.getLast? := by
  rw [create_circle_polygon, if_neg (by omega)] at h
  cases hcl : circleLoop g center radius_m (dDiv 360 (num_segments : ℚ))
      (num_segments.toNat + 2) 0 with
  | none => rw [hcl] at h; cases h
  | some pts =>
    rw [hcl] at h
    cases pts with
    | nil => cases h
    | cons p rest =>
      cases h
      refine ⟨by simp, ?_⟩
      rw [List.getLast?_concat]
      rfl

/-- C8 witness: one segment, radius 1, trivial solver. -/
theorem c8_circle_first_eq_last_witness :
    [((0 : ℚ), (0 : ℚ)), (0, 0)] ≠ [] ∧
    ([((0 : ℚ), (0 : ℚ)), (0, 0)] : List (ℚ × ℚ)).head? =
      ([((0 : ℚ), (0 : ℚ)), (0, 0)] : List (ℚ × ℚ)).getLast? :=
  c8_circle_first_eq_last gZero (0, 0) 1 1 [(0, 0), (0, 0)]
    (by norm_num) (by norm_num) (by decide)

/-- Success shape of `parse_coords`: when all six slices convert and both
hemisphere positions exist, the result is exactly the sexagesimal
combination with the latitude negated precisely when position 6 is `'S'`
and the longitude negated precisely when position 14 is `'W'`. -/
theorem parse_coords_eq_some_of (s : String) (a b c d e f : ℚ) (c6 c14 : Char)
    (h1 : pyFloat? (pySlice s 0 2) = some a) (h2 : pyFloat? (pySlice s 2 4) = some b)
    (h3 : pyFloat? (pySlice s 4 6) = some c) (h4 : pyFloat? (pySlice s 7 10) = some d)
    (h5 : pyFloat? (pySlice s 10 12) = some e) (h6 : pyFloat? (pySlice s 12 14) = some f)
    (h7 : s.toList.get? 6 = some c6) (h8 : s.toList.get? 14 = some c14) :
    parse_coords s = some
      ((if c14 = 'W' then -(dAdd (dAdd d (dDiv e 60)) (dDiv f 3600))
        else dAdd (dAdd d (dDiv e 60)) (dDiv f 3600)),
       (if c6 = 'S' then -(dAdd (dAdd a (dDiv b 60)) (dDiv c 3600))
        else dAdd (dAdd a (dDiv b 60)) (dDiv c 3600))) := by
  simp only [List.get?_eq_getElem?, String.toList] at h7 h8
  simp [parse_coords, h1, h2, h3, h4, h5, h6, h7, h8]

/-- Failure shape of `parse_coords`: the result is `none` exactly when one
of the six slices fails to convert or one of the two indexed positions is
out of range. -/
theorem parse_coords_eq_none_iff (s : String) :
    parse_coords s = none ↔
      (pyFloat? (pySlice s 0 2) = none ∨ pyFloat? (pySlice s 2 4) = none ∨
       pyFloat? (pySlice s 4 6) = none ∨ pyFloat? (pySlice s 7 10) = none ∨
       pyFloat? (pySlice s 10 12) = none ∨ pyFloat? (pySlice s 12 14) = none ∨
       s.toList.get? 6 = none ∨ s.toList.get? 14 = none) := by
  constructor
  · intro h
    by_contra hc
    push_neg at hc
    obtain ⟨k1, k2, k3, k4, k5, k6, k7, k8⟩ := hc
    obtain ⟨a, e1⟩ := Option.ne_none_iff_exists'.mp k1
    obtain ⟨b, e2⟩ := Option.ne_none_iff_exists'.mp k2
    obtain ⟨c, e3⟩ := Option.ne_none_iff_exists'.mp k3
    obtain ⟨d, e4⟩ := Option.ne_none_iff_exists'.mp k4
    obtain ⟨e, e5⟩ := Option.ne_none_iff_exists'.mp k5
    obtain ⟨f, e6⟩ := Option.ne_none_iff_exists'.mp k6
    obtain ⟨c6, e7⟩ := Option.ne_none_iff_exists'.mp k7
    obtain ⟨c14, e8⟩ := Option.ne_none_iff_exists'.mp k8
    simp only [List.get?_eq_getElem?, String.toList] at e7 e8
    simp [parse_coords, e1, e2, e3, e4, e5, e6, e7, e8] at h
  · intro hor
    cases e1 : pyFloat? (pySlice s 0 2) with
    | none => simp [parse_coords, e1]
    | some a =>
    cases e2 : pyFloat? (pySlice s 2 4) with
    | none => simp [parse_coords, e2]
    | some b =>
    cases e3 : pyFloat? (pySlice s 4 6) with
    | none => simp [parse_coords, e3]
    | some c =>
    cases e4 : pyFloat? (pySlice s 7 10) with
    | none => simp [parse_coords, e4]
    | some d =>
    cases e5 : pyFloat? (pySlice s 10 12) with
    | none => simp [parse_coords, e5]
    | some e =>
    cases e6 : pyFloat? (pySlice s 12 14) with
    | none => simp [parse_coords, e6]
    | some f =>
    cases e7 : s.toList.get? 6 with
    | none =>
      simp only [List.get?_eq_getElem?, String.toList] at e7
      simp [parse_coords, e7]
    | some c6 =>
    cases e8 : s.toList.get? 14 with
    | none =>
      simp only [List.get?_eq_getElem?, String.toList] at e8
      simp [parse_coords, e8]
    | some c14 =>
      rcases hor with k|k|k|k|k|k|k|k
      · rw [k] at e1; cases e1
      · rw [k] at e2; cases e2
      · rw [k] at e3; cases e3
      · rw [k] at e4; cases e4
      · rw [k] at e5; cases e5
      · rw [k] at e6; cases e6
      · rw [k] at e7; cases e7
      · rw [k] at e8; cases e8

set_option maxRecDepth 8000 in
/-- C2 counterexample: the claim asserts `parse_coords` fails whenever a
hemisphere letter is not one of the two valid letters for its axis, but
the input `"422750X1154403W"` — length 15, `'X'` in the latitude
hemisphere position — is accepted. -/
theorem c2_counterexample :
    (parse_coords "422750X1154403W").isSome = true ∧
    "422750X1154403W".length = 15 ∧
    ¬('X' = 'N' ∨ 'X' = 'S') := by
  refine ⟨by decide, by decide, by decide⟩

set_option maxRecDepth 8000 in
/-- C2 amended: `parse_coords` fails (with an untyped `ValueError` or
`IndexError`, there is no `MalformedCoordinate` type in the code) exactly
when the string is shorter than 15 characters or one of the six
degree/minute/second slices fails to convert as a float; hemisphere
letters are never validated and characters beyond position 14 are
ignored.  `parse_coords "1234"` fails; `parse_coords "999999N1154403W"`
is accepted. -/
theorem c2_failure_characterization :
    (∀ s : String, parse_coords s = none ↔
      (s.length < 15 ∨ pyFloat? (pySlice s 0 2) = none ∨ pyFloat? (pySlice s 2 4) = none ∨
       pyFloat? (pySlice s 4 6) = none ∨ pyFloat? (pySlice s 7 10) = none ∨
       pyFloat? (pySlice s 10 12) = none ∨ pyFloat? (pySlice s 12 14) = none)) ∧
    parse_coords "1234" = none ∧
    (parse_coords "999999N1154403W").isSome = true := by
  refine ⟨?_, by decide, by decide⟩
  intro s
  rw [parse_coords_eq_none_iff s]
  have hlen : s.toList.length = s.length := rfl
  constructor
  · rintro (k|k|k|k|k|k|k|k)
    · exact Or.inr (Or.inl k)
    · exact Or.inr (Or.inr (Or.inl k))
    · exact Or.inr (Or.inr (Or.inr (Or.inl k)))
    · exact Or.inr (Or.inr (Or.inr (Or.inr (Or.inl k))))
    · exact Or.inr (Or.inr (Or.inr (Or.inr (Or.inr (Or.inl k)))))
    · exact Or.inr (Or.inr (Or.inr (Or.inr (Or.inr (Or.inr k)))))
    · rw [List.get?_eq_none, hlen] at k
      exact Or.inl (by omega)
    · rw [List.get?_eq_none, hlen] at k
      exact Or.inl (by omega)
  · rintro (k|k|k|k|k|k|k)
    · refine Or.inr (Or.inr (Or.inr (Or.inr (Or.inr (Or.inr (Or.inr ?_))))))
      rw [List.get?_eq_none, hlen]
      omega
    · exact Or.inl k
    · exact Or.inr (Or.inl k)
    · exact Or.inr (Or.inr (Or.inl k))
    · exact Or.inr (Or.inr (Or.inr (Or.inl k)))
    · exact Or.inr (Or.inr (Or.inr (Or.inr (Or.inl k))))
    · exact Or.inr (Or.inr (Or.inr (Or.inr (Or.inr (Or.inl k)))))

/-- C2 witness: the characterization instantiated at `"1234"`. -/
theorem c2_failure_characterization_witness :
    parse_coords "1234" = none ↔
      (("1234" : String).length < 15 ∨
       pyFloat? (pySlice "1234" 0 2) = none ∨ pyFloat? (pySlice "1234" 2 4) = none ∨
       pyFloat? (pySlice "1234" 4 6) = none ∨ pyFloat? (pySlice "1234" 7 10) = none ∨
       pyFloat? (pySlice "1234" 10 12) = none ∨ pyFloat? (pySlice "1234" 12 14) = none) :=
  c2_failure_characterization.1 "1234"

set_option maxRecDepth 8000 in
/-- C9: `parse_coords` decides hemispheres only by equality with `'S'`
(position 6) and `'W'` (position 14); any other character there is
accepted and leaves the axis value positive.  Concretely,
`"422750X1154403W"` (invalid letter `'X'`) and `"422750011544030"`
(digits in both hemisphere positions) both decode, with the `'X'` and
`'0'` axes treated as north/east. -/
theorem c9_hemisphere_by_equality_only :
    (∀ (s : String) (a b c d e f : ℚ) (c6 c14 : Char),
      pyFloat? (pySlice s 0 2) = some a → pyFloat? (pySlice s 2 4) = some b →
      pyFloat? (pySlice s 4 6) = some c → pyFloat? (pySlice s 7 10) = some d →
      pyFloat? (pySlice s 10 12) = some e → pyFloat? (pySlice s 12 14) = some f →
      s.toList.get? 6 = some c6 → s.toList.get? 14 = some c14 →
      parse_coords s = some
        ((if c14 = 'W' then -(dAdd (dAdd d (dDiv e 60)) (dDiv f 3600))
          else dAdd (dAdd d (dDiv e 60)) (dDiv f 3600)),
         (if c6 = 'S' then -(dAdd (dAdd a (dDiv b 60)) (dDiv c 3600))
          else dAdd (dAdd a (dDiv b 60)) (dDiv c 3600)))) ∧
    parse_coords "422750X1154403W" =
      some (-(8144067966781795 / 70368744177664), 2988130534010971 / 70368744177664) ∧
    parse_coords "422750011544030" =
      some (8144067966781795 / 70368744177664, 2988130534010971 / 70368744177664) ∧
    ((0 : ℚ) < 2988130534010971 / 70368744177664 ∧
     (0 : ℚ) < 8144067966781795 / 70368744177664) := by
  exact ⟨fun s a b c d e f c6 c14 h1 h2 h3 h4 h5 h6 h7 h8 =>
    parse_coords_eq_some_of s a b c d e f c6 c14 h1 h2 h3 h4 h5 h6 h7 h8,
    by decide, by decide, by norm_num, by norm_num⟩

set_option maxRecDepth 8000 in
/-- C9 witness: the shape theorem instantiated at `"422750N1154403W"`. -/
theorem c9_hemisphere_by_equality_only_witness :
    parse_coords "422750N1154403W" =
      some (-(dAdd (dAdd 115 (dDiv 44 60)) (dDiv 3 3600)),
        dAdd (dAdd 42 (dDiv 27 60)) (dDiv 50 3600)) := by
  simpa using c9_hemisphere_by_equality_only.1 "422750N1154403W"
    42 27 50 115 44 3 'N' 'W'
    (by decide) (by decide) (by decide) (by decide) (by decide) (by decide)
    (by decide) (by decide)

/-- Python slicing reads only the first string when the bound lies inside
it, so appending cannot change a slice. -/
theorem pySlice_append (s t : String) (a b : Nat) (hab : a ≤ b)
    (hb : b ≤ s.length) : pySlice (s ++ t) a b = pySlice s a b := by
  have hdata : (s ++ t).toList = s.toList ++ t.toList := rfl
  have hlen : s.toList.length = s.length := rfl
  rw [pySlice, pySlice, hdata,
    List.drop_append_of_le_length (by omega),
    List.take_append_of_le_length (by rw [List.length_drop]; omega)]

set_option maxRecDepth 8000 in
/-- C10: `parse_coords` reads only positions 0 through 14, so appending
any trailing characters to a string of length at least 15 leaves the
result unchanged; in particular a longer-than-15 input with numeric
slices succeeds. -/
theorem c10_trailing_characters_ignored :
    (∀ s t : String, 15 ≤ s.length →
      parse_coords (s ++ t) = parse_coords s) ∧
    parse_coords ("422750N1154403W" ++ "XTRASTUFF") =
      parse_coords "422750N1154403W" ∧
    (parse_coords ("422750N1154403W" ++ "XTRASTUFF")).isSome = true := by
  refine ⟨?_, by decide, by decide⟩
  intro s t h
  have hdata : (s ++ t).toList = s.toList ++ t.toList := rfl
  have hlen : s.toList.length = s.length := rfl
  simp only [parse_coords]
  rw [pySlice_append s t 0 2 (by omega) (by omega),
    pySlice_append s t 2 4 (by omega) (by omega),
    pySlice_append s t 4 6 (by omega) (by omega),
    pySlice_append s t 7 10 (by omega) (by omega),
    pySlice_append s t 10 12 (by omega) (by omega),
    pySlice_append s t 12 14 (by omega) (by omega),
    hdata, List.get?_append (by omega), List.get?_append (by omega)]

/-- C10 witness: the prefix-determinism fact instantiated concretely. -/
theorem c10_trailing_characters_ignored_witness :
    parse_coords ("999999N1154403W" ++ "Z") = parse_coords "999999N1154403W" :=
  c10_trailing_characters_ignored.1 "999999N1154403W" "Z" (by decide)

/-- Unpacking a successful `polyFeature`: the ring is the decoded vertex
list and the properties carry the polygon's own rendered altitude. -/
theorem polyFeature_eq_some {n : Notam} {p : Polygon} {f : Feature}
    (h : polyFeature n p = some f) :
    decodeVertices p.coordinates = some f.ring ∧
      f.properties = featureProperties n (AltitudeRange.pyStr p.altitude) := by
  rw [polyFeature] at h
  cases hd : decodeVertices p.coordinates with
  | none => rw [hd] at h; cases h
  | some ring => rw [hd] at h; cases h; exact ⟨rfl, rfl⟩

/-- Unpacking a successful `ringFeature`: the properties carry the range
ring's own rendered altitude. -/
theorem ringFeature_eq_some {g : Geod} {n : Notam} {rr : RangeRing} {f : Feature}
    (h : ringFeature g n rr = some f) :
    f.properties = featureProperties n rr.altitude.pyStr := by
  rw [ringFeature] at h
  cases hc : parse_coords (rr.center.lat ++ rr.center.lon) with
  | none => rw [hc] at h; cases h
  | some center =>
    rw [hc] at h
    simp only [Option.bind_eq_bind, Option.some_bind] at h
    cases hcp : create_circle_polygon g center
        (nautical_miles_to_meters rr.radius_nm) 300 with
    | none => rw [hcp] at h; cases h
    | some ring =>
      rw [hcp] at h
      simp only [Option.some_bind] at h
      cases h
      rfl

set_option maxRecDepth 100000 in
/-- With the exporter's fixed segment count of 300, the sampling loop
always finishes (in 301 iterations), so the circle polygon is always
produced, whatever the solver, center and radius (even a negative one). -/
theorem create_circle_polygon_300_isSome (g : Geod) (c : ℚ × ℚ) (r : ℚ) :
    (create_circle_polygon g c r 300).isSome = true := by
  have hsome : (bearingList (dDiv 360 ((300 : ℤ) : ℚ)) ((300 : ℤ).toNat + 2) 0).isSome
      = true := by decide
  obtain ⟨bl, hbl⟩ := Option.isSome_iff_exists.mp hsome
  have hne : bl ≠ [] := bearingList_zero_ne_nil hbl
  rw [create_circle_polygon, if_neg (by norm_num), circleLoop_eq_bearingList, hbl]
  cases bl with
  | nil => exact absurd rfl hne
  | cons b rest => rfl

/-- `exportRings` succeeds on any list of rings whose centers decode,
with one Feature per ring; no radius or segment validation occurs. -/
theorem exportRings_some (g : Geod) (n : Notam) :
    ∀ l : List RangeRing,
      (∀ rr ∈ l, (parse_coords (rr.center.lat ++ rr.center.lon)).isSome = true) →
      ∃ fs, exportRings g n l = some fs ∧ fs.length = l.length
  | [], _ => ⟨[], rfl, rfl⟩
  | rr :: rest, h => by
    obtain ⟨center, hc⟩ := Option.isSome_iff_exists.mp (h rr (by simp))
    obtain ⟨ring, hring⟩ := Option.isSome_iff_exists.mp
      (create_circle_polygon_300_isSome g center (nautical_miles_to_meters rr.radius_nm))
    obtain ⟨fs, hfs, hlen⟩ := exportRings_some g n rest (fun r hr => h r (by simp [hr]))
    refine ⟨⟨ring, featureProperties n rr.altitude.pyStr⟩ :: fs, ?_, by simp [hlen]⟩
    rw [exportRings, ringFeature, hc]
    simp only [Option.bind_eq_bind, Option.some_bind]
    rw [hring]
    simp only [Option.some_bind]
    rw [hfs]
    rfl

/-- `exportPolys` succeeds on any list of polygons whose vertices decode,
with one Feature per polygon; no vertex-count validation occurs. -/
theorem exportPolys_some (n : Notam) :
    ∀ l : List Polygon,
      (∀ p ∈ l, (decodeVertices p.coordinates).isSome = true) →
      ∃ fs, exportPolys n l = some fs ∧ fs.length = l.length
  | [], _ => ⟨[], rfl, rfl⟩
  | p :: rest, h => by
    obtain ⟨ring, hring⟩ := Option.isSome_iff_exists.mp (h p (by simp))
    obtain ⟨fs, hfs, hlen⟩ := exportPolys_some n rest (fun q hq => h q (by simp [hq]))
    refine ⟨⟨ring, featureProperties n (AltitudeRange.pyStr p.altitude)⟩ :: fs, ?_,
      by simp [hlen]⟩
    rw [exportPolys, polyFeature, hring]
    simp only [Option.bind_eq_bind, Option.some_bind]
    rw [hfs]
    rfl

/-- C1 counterexample: a polygon whose decoded vertices are
`(0,0), (0,1), (1,0)` — first and last differ — is exported with exactly
those three vertices as its ring; no closing point is appended, contrary
to the claim. -/
theorem c1_counterexample :
    Notam.as_geojson gZero notamOpenPolygon =
      some [⟨[(0, 0), (0, 1), (1, 0)],
        ⟨none, none, none, "None", "None", [],
         "type='RANGE' min=SurfaceAlt(type='SFC') max=UnlimitedAlt(type='UNL')"⟩⟩] ∧
    ((0 : ℚ), (0 : ℚ)) ≠ ((1 : ℚ), (0 : ℚ)) ∧
    List.length [((0 : ℚ), (0 : ℚ)), (0, 1), (1, 0)] ≠ 3 + 1 := by
  exact ⟨by decide, by decide, by decide⟩

/-- C1 amended: the exported GeoJSON ring of every Polygon entity is
exactly the decoded vertices in input order, in all cases — the exporter
never appends a closing point, even when the first and last decoded
points differ. -/
theorem c1_exported_ring_is_decoded_vertices (g : Geod) (n : Notam)
    (fs : List Feature) (j : Nat) (poly : Polygon) (f : Feature)
    (hgeo : Notam.as_geojson g n = some fs)
    (hpoly : n.polygons.get? j = some poly)
    (hf : fs.get? (n.range_rings.length + j) = some f) :
    decodeVertices poly.coordinates = some f.ring := by
  obtain ⟨rfs, pfs, hr, hp, rfl⟩ := as_geojson_parts hgeo
  have hrlen : rfs.length = n.range_rings.length := exportRings_length g n hr
  rw [List.get?_append_right (by omega)] at hf
  have hidx : n.range_rings.length + j - rfs.length = j := by omega
  rw [hidx] at hf
  have hpt := exportPolys_get? n hp j
  rw [hf, hpoly] at hpt
  have hpf : polyFeature n poly = some f := by simpa using hpt.symm
  exact (polyFeature_eq_some hpf).1

/-- C1 witness: the amended statement instantiated on the open polygon. -/
theorem c1_exported_ring_is_decoded_vertices_witness :
    decodeVertices [coordZero, coordLat1, coordLon1] =
      some [(0, 0), (0, 1), (1, 0)] := by
  simpa using c1_exported_ring_is_decoded_vertices gZero notamOpenPolygon
    [⟨[(0, 0), (0, 1), (1, 0)],
      ⟨none, none, none, "None", "None", [],
       "type='RANGE' min=SurfaceAlt(type='SFC') max=UnlimitedAlt(type='UNL')"⟩⟩]
    0 ⟨[coordZero, coordLat1, coordLon1], ⟨.surfaceAlt, .unlimitedAlt⟩⟩
    ⟨[(0, 0), (0, 1), (1, 0)],
      ⟨none, none, none, "None", "None", [],
       "type='RANGE' min=SurfaceAlt(type='SFC') max=UnlimitedAlt(type='UNL')"⟩⟩
    (by decide) (by decide) (by decide)

/-- C3: every emitted Feature's `properties.altitude` is the rendering of
the altitude of that Feature's own source ring (for the first block of
features) or polygon (for the second block); and the rendering of
`Range(FlightLevel 400, Unlimited)` contains the rendering of `FL400` and
the string `"UNL"`. -/
theorem c3_altitude_from_own_entity :
    (∀ (g : Geod) (n : Notam) (fs : List Feature),
      Notam.as_geojson g n = some fs →
        (∀ i rr f, n.range_rings.get? i = some rr → fs.get? i = some f →
          f.properties.altitude = rr.altitude.pyStr) ∧
        (∀ j poly f, n.polygons.get? j = some poly →
          fs.get? (n.range_rings.length + j) = some f →
          f.properties.altitude = AltitudeRange.pyStr poly.altitude)) ∧
    containsStr (RingAlt.pyStr (.range ⟨.flAlt 400, .unlimitedAlt⟩))
      "FlAlt(type='FL', height_ft=400)" = true ∧
    containsStr (RingAlt.pyStr (.range ⟨.flAlt 400, .unlimitedAlt⟩)) "UNL" = true := by
  refine ⟨?_, by decide, by decide⟩
  intro g n fs hgeo
  obtain ⟨rfs, pfs, hr, hp, rfl⟩ := as_geojson_parts hgeo
  have hrlen : rfs.length = n.range_rings.length := exportRings_length g n hr
  constructor
  · intro i rr f hrr hf
    have hi : i < n.range_rings.length := by
      by_contra hlt
      rw [List.get?_eq_none.mpr (by omega)] at hrr
      cases hrr
    rw [List.get?_append (by omega)] at hf
    have hrt := exportRings_get? g n hr i
    rw [hf, hrr] at hrt
    have hrf : ringFeature g n rr = some f := by simpa using hrt.symm
    rw [ringFeature_eq_some hrf]
    rfl
  · intro j poly f hpoly hf
    rw [List.get?_append_right (by omega)] at hf
    have hidx : n.range_rings.length + j - rfs.length = j := by omega
    rw [hidx] at hf
    have hpt := exportPolys_get? n hp j
    rw [hf, hpoly] at hpt
    have hpf : polyFeature n poly = some f := by simpa using hpt.symm
    rw [(polyFeature_eq_some hpf).2]
    rfl

/-- C3 witness: the per-feature altitude fact instantiated on a concrete
export whose polygon has altitude `Range(FlightLevel 400, Unlimited)`. -/
theorem c3_altitude_from_own_entity_witness :
    (Feature.properties ⟨[(0, 0)],
      ⟨none, none, none, "None", "None", [],
       "type='RANGE' min=FlAlt(type='FL', height_ft=400) max=UnlimitedAlt(type='UNL')"⟩⟩).altitude =
      AltitudeRange.pyStr ⟨.flAlt 400, .unlimitedAlt⟩ :=
  (c3_altitude_from_own_entity.1 gZero notamOneVertex
      [⟨[(0, 0)],
        ⟨none, none, none, "None", "None", [],
         "type='RANGE' min=FlAlt(type='FL', height_ft=400) max=UnlimitedAlt(type='UNL')"⟩⟩]
      (by decide)).2
    0 ⟨[coordZero], ⟨.flAlt 400, .unlimitedAlt⟩⟩ _ (by decide) (by decide)

set_option maxRecDepth 100000 in
/-- C4 counterexample: at the exporter's segment count of 300 (radius 372
nautical miles converted to meters), the emitted ring has 302 points, not
the 301 (= segments + 1) the claim asserts: the binary64 accumulation of
`360/300` falls just short of 360 after 300 additions, so the loop runs a
301st time. -/
theorem c4_counterexample :
    (create_circle_polygon gZero (0, 0) (nautical_miles_to_meters 372) 300).map
      List.length = some 302 ∧
    (302 : ℕ) ≠ 300 + 1 := by
  exact ⟨by decide, by decide⟩

set_option maxRecDepth 100000 in
/-- C4 amended: the circle sampler emits one `get_endpoint` result per
value of the binary64 bearing accumulation `0, 0+step, (0+step)+step, …`
(each sum rounded) while it stays below 360, then appends the first point
(the bearing-0 endpoint); the ring therefore has (number of accumulated
bearings below 360) + 1 points, which is `segments + 1` only when the
accumulation reaches 360 in `segments` steps — at the exporter's
`segments = 300` it takes 301 steps, giving 302 points. -/
theorem c4_sampling_structure (g : Geod) (center : ℚ × ℚ) (radius_m : ℚ)
    (num_segments : ℤ) (l : List (ℚ × ℚ)) (bl : List ℚ)
    (hcp : create_circle_polygon g center radius_m num_segments = some l)
    (hbl : bearingList (dDiv 360 (num_segments : ℚ)) (num_segments.toNat + 2) 0 =
      some bl) :
    l = bl.map (fun b => get_endpoint g center.2 center.1 b radius_m) ++
        [get_endpoint g center.2 center.1 0 radius_m] ∧
    l.length = bl.length + 1 ∧
    (bearingList (dDiv 360 ((300 : ℤ) : ℚ)) ((300 : ℤ).toNat + 2) 0).map
      List.length = some 301 := by
  by_cases hn : num_segments ≤ 0
  · rw [create_circle_polygon, if_pos hn] at hcp; cases hcp
  · rw [create_circle_polygon, if_neg hn, circleLoop_eq_bearingList, hbl] at hcp
    have hbl0 : ∃ rest, bl = 0 :: rest := by
      rw [bearingList, if_pos (by norm_num : (0 : ℚ) < 360)] at hbl
      cases hb2 : bearingList (dDiv 360 (num_segments : ℚ)) (num_segments.toNat + 1)
          (dAdd 0 (dDiv 360 (num_segments : ℚ))) with
      | none => rw [hb2] at hbl; cases hbl
      | some bl2 => rw [hb2] at hbl; cases hbl; exact ⟨bl2, rfl⟩
    obtain ⟨rest, rfl⟩ := hbl0
    simp only [Option.map_some', List.map_cons, Option.some_bind] at hcp
    cases hcp
    refine ⟨by simp, by simp, by decide⟩

/-- C4 witness: four segments — here the accumulation is exact, the loop
runs exactly 4 times at bearings 0, 90, 180, 270, and the ring has 5
points. -/
theorem c4_sampling_structure_witness :
    ([((0 : ℚ), (0 : ℚ)), (0, 0), (0, 0), (0, 0), (0, 0)] : List (ℚ × ℚ)) =
      ([0, 90, 180, 270] : List ℚ).map
        (fun b => get_endpoint gZero ((0 : ℚ), (0 : ℚ)).2 ((0 : ℚ), (0 : ℚ)).1 b 1) ++
        [get_endpoint gZero ((0 : ℚ), (0 : ℚ)).2 ((0 : ℚ), (0 : ℚ)).1 0 1] ∧
    ([((0 : ℚ), (0 : ℚ)), (0, 0), (0, 0), (0, 0), (0, 0)] : List (ℚ × ℚ)).length =
      ([0, 90, 180, 270] : List ℚ).length + 1 ∧
    (bearingList (dDiv 360 ((300 : ℤ) : ℚ)) ((300 : ℤ).toNat + 2) 0).map
      List.length = some 301 :=
  c4_sampling_structure gZero (0, 0) 1 4
    [(0, 0), (0, 0), (0, 0), (0, 0), (0, 0)] [0, 90, 180, 270]
    (by decide) (by decide)

/-- C5 counterexample: a Notam whose only entity is a one-vertex polygon
(fewer than 3 vertices) exports successfully to a Feature with a
one-point ring — no `InvalidGeometry` failure of any kind occurs. -/
theorem c5_counterexample :
    Notam.as_geojson gZero notamOneVertex =
      some [⟨[(0, 0)],
        ⟨none, none, none, "None", "None", [],
         "type='RANGE' min=FlAlt(type='FL', height_ft=400) max=UnlimitedAlt(type='UNL')"⟩⟩] ∧
    List.length [((0 : ℚ), (0 : ℚ))] < 3 := by
  exact ⟨by decide, by decide⟩

/-- C5 amended: the code performs no geometric validation at all — for
every solver and every Notam whose coordinate strings decode, the export
succeeds with one Feature per ring and per polygon, regardless of radius
sign, vertex count (even 0 or 1), or any other geometric condition; the
segment count is fixed at 300 by the exporter and never validated. -/
theorem c5_no_geometry_validation (g : Geod) (n : Notam)
    (hr : ∀ rr ∈ n.range_rings,
      (parse_coords (rr.center.lat ++ rr.center.lon)).isSome = true)
    (hp : ∀ p ∈ n.polygons, (decodeVertices p.coordinates).isSome = true) :
    ∃ fs, Notam.as_geojson g n = some fs ∧
      fs.length = n.range_rings.length + n.polygons.length := by
  obtain ⟨rfs, hrfs, hrlen⟩ := exportRings_some g n n.range_rings hr
  obtain ⟨pfs, hpfs, hplen⟩ := exportPolys_some n n.polygons hp
  refine ⟨rfs ++ pfs, ?_, by simp [hrlen, hplen]⟩
  rw [Notam.as_geojson, hrfs, hpfs]
  rfl

/-- C5 witness: a Notam violating both geometric validity conditions (a
negative-radius ring and a one-vertex polygon) still exports. -/
theorem c5_no_geometry_validation_witness :
    (Notam.as_geojson gZero notamInvalidGeometry).isSome = true := by
  obtain ⟨fs, hfs, _⟩ :=
    c5_no_geometry_validation gZero notamInvalidGeometry (by decide) (by decide)
  rw [hfs]
  rfl

end Claims

end NotamMapper
